import Mathlib

/-!
Verification of the growth-standard evaluation core of the
community-nutrition repository (package `who-child-growth-standards`).

The TypeScript sources are shallowly embedded:
- JavaScript numbers used for measurements, table values and calendar
  arithmetic are modelled as `ℚ` (or `ℤ` where the source only ever holds
  integers); the transcendental LMS transform is modelled over `ℝ`.
- `Date` values are modelled by `JSDate`, carrying the calendar fields the
  source reads (`getFullYear`/`getMonth`/`getDate`) together with the epoch
  timestamp (`getTime`, in milliseconds).  Source functions that call
  `new Date()` internally take the current date as an explicit `today`
  argument.
- Functions that `throw` are embedded as `Except String`; functions that
  return `null`/`undefined` are embedded as `Option`.
-/

/-- `Gender` from src/packages/who-child-growth-standards/src/types.ts. -/
inductive Gender where
  | Male
  | Female
deriving DecidableEq, Repr

/-- `WeightForLengthEvalulationStatus` from types.ts (eight percentile bands). -/
inductive WeightForLengthEvalulationStatus where
  | BelowSd3Neg
  | BetweenSd3NegAndSd2Neg
  | BetweenSd2NegAndSd1Neg
  | BetweenSd1NegAndSd0
  | BetweenSd0AndSd1
  | BetweenSd1AndSd2
  | BetweenSd2AndSd3
  | AboveSd3
deriving DecidableEq, Repr

/-- `LengthHeightForAgeEvalulationStatus` from types.ts (same eight bands). -/
inductive LengthHeightForAgeEvalulationStatus where
  | BelowSd3Neg
  | BetweenSd3NegAndSd2Neg
  | BetweenSd2NegAndSd1Neg
  | BetweenSd1NegAndSd0
  | BetweenSd0AndSd1
  | BetweenSd1AndSd2
  | BetweenSd2AndSd3
  | AboveSd3
deriving DecidableEq, Repr

/-- `LengthOrHeightForAgeType` from types.ts. -/
inductive LengthOrHeightForAgeType where
  | Length
  | Height
deriving DecidableEq, Repr

/-- `WeightForLength` row interface from types.ts: independent variable
`length` (cm), LMS parameters and the seven precomputed sd boundaries. -/
structure WeightForLength where
  length : ℚ
  l : ℚ
  m : ℚ
  s : ℚ
  sd3neg : ℚ
  sd2neg : ℚ
  sd1neg : ℚ
  sd0 : ℚ
  sd1 : ℚ
  sd2 : ℚ
  sd3 : ℚ
deriving DecidableEq, Repr

/-- `LengthForAge` row interface from types.ts (keyed by week). -/
structure LengthForAge where
  week : ℤ
  l : ℚ
  m : ℚ
  s : ℚ
  sd3neg : ℚ
  sd2neg : ℚ
  sd1neg : ℚ
  sd0 : ℚ
  sd1 : ℚ
  sd2 : ℚ
  sd3 : ℚ
deriving DecidableEq, Repr

/-- `HeightForAge` row interface from types.ts (keyed by month). -/
structure HeightForAge where
  month : ℤ
  l : ℚ
  m : ℚ
  s : ℚ
  sd3neg : ℚ
  sd2neg : ℚ
  sd1neg : ℚ
  sd0 : ℚ
  sd1 : ℚ
  sd2 : ℚ
  sd3 : ℚ
deriving DecidableEq, Repr

/-- Model of a JavaScript `Date`: the calendar fields the source reads
(`getFullYear`, `getMonth` 0-11, `getDate` 1-31) together with the epoch
timestamp in milliseconds (`getTime`).  A concrete `JSDate` used in a
theorem is always instantiated with mutually consistent field values. -/
structure JSDate where
  year : ℤ
  month : ℤ
  day : ℤ
  timeMs : ℤ
deriving DecidableEq, Repr

/-- `calculateMonthsSinceBirth` from the package math module
(src/unnamed/part_027): calendar-aware month difference; `new Date()` is
the explicit `today` argument. -/
def calculateMonthsSinceBirth (birthDate today : JSDate) : ℤ :=
  let years := today.year - birthDate.year
  let months := today.month - birthDate.month
  let days := today.day - birthDate.day
  let totalMonths := years * 12 + months
  if days < 0 then totalMonths - 1 else totalMonths

/-- `calculateWeeksBetweenDates` from the package math module
(src/unnamed/part_027): `Math.floor(diffMs / msPerWeek)` is floor
division on the integer millisecond difference. -/
def calculateWeeksBetweenDates (fromDate toDate : JSDate) : ℤ :=
  let msPerWeek : ℤ := 7 * 24 * 60 * 60 * 1000
  Int.fdiv (toDate.timeMs - fromDate.timeMs) msPerWeek

namespace UnnamedPart028

/-- The second `calculateMonthsSinceBirth` implementation in the repository
(src/unnamed/part_028, a file whose name is unknown): it returns only the
raw `getMonth` difference, with no year term and no day-of-month
decrement. -/
def calculateMonthsSinceBirth (birthDate today : JSDate) : ℤ :=
  let months := today.month - birthDate.month
  months

end UnnamedPart028

/-- The spec formula for months-since-birth (spec section 4.1, quoted by the
claim): `(yearsDiff*12 + monthsDiff)`, decremented by one exactly when the
day-of-month of the evaluation date precedes the day-of-month of birth. -/
def specMonthsSinceBirth (birthDate today : JSDate) : ℤ :=
  (today.year - birthDate.year) * 12 + (today.month - birthDate.month)
    - (if today.day < birthDate.day then 1 else 0)

/-- `lengthForAgeGirl0To13Weeks` transcribed exactly from
src/packages/who-child-growth-standards/src/length-height-for-age (the
related data file shipped with length-height-for-age.ts). -/
def lengthForAgeGirl0To13Weeks : List LengthForAge :=
  [ ⟨0, 1, 49.1477, 0.0379, 43.6, 45.4, 47.3, 49.1, 51, 52.9, 54.7⟩
  , ⟨1, 1, 50.3298, 0.03742, 44.7, 46.6, 48.4, 50.3, 52.2, 54.1, 56⟩
  , ⟨2, 1, 51.512, 0.03694, 45.8, 47.7, 49.6, 51.5, 53.4, 55.3, 57.2⟩
  , ⟨3, 1, 52.4695, 0.03669, 46.7, 48.6, 50.5, 52.5, 54.4, 56.3, 58.2⟩
  , ⟨4, 1, 53.3809, 0.03647, 47.5, 49.5, 51.4, 53.4, 55.3, 57.3, 59.2⟩
  , ⟨5, 1, 54.2454, 0.03627, 48.3, 50.3, 52.3, 54.2, 56.2, 58.2, 60.1⟩
  , ⟨6, 1, 55.0642, 0.03609, 49.1, 51.1, 53.1, 55.1, 57.1, 59, 61⟩
  , ⟨7, 1, 55.8406, 0.03593, 49.8, 51.8, 53.8, 55.8, 57.8, 59.9, 61.9⟩
  , ⟨8, 1, 56.5767, 0.03578, 50.5, 52.5, 54.6, 56.6, 58.6, 60.6, 62.6⟩
  , ⟨9, 1, 57.2761, 0.03564, 51.2, 53.2, 55.2, 57.3, 59.3, 61.4, 63.4⟩
  , ⟨10, 1, 57.9436, 0.03552, 51.8, 53.8, 55.9, 57.9, 60, 62.1, 64.1⟩
  , ⟨11, 1, 58.5816, 0.0354, 52.4, 54.4, 56.5, 58.6, 60.7, 62.7, 64.8⟩
  , ⟨12, 1, 59.1922, 0.0353, 52.9, 55, 57.1, 59.2, 61.3, 63.4, 65.5⟩
  , ⟨13, 1, 59.7773, 0.0352, 53.5, 55.6, 57.7, 59.8, 61.9, 64, 66.1⟩ ]

/-- `lengthForAgeBoy0To13Weeks` transcribed exactly from the same data file. -/
def lengthForAgeBoy0To13Weeks : List LengthForAge :=
  [ ⟨0, 1, 49.8842, 0.03795, 44.2, 46.1, 48, 49.9, 51.8, 53.7, 55.6⟩
  , ⟨1, 1, 51.1152, 0.03723, 45.4, 47.3, 49.2, 51.1, 53, 54.9, 56.8⟩
  , ⟨2, 1, 52.3461, 0.03652, 46.6, 48.5, 50.4, 52.3, 54.3, 56.2, 58.1⟩
  , ⟨3, 1, 53.3905, 0.03609, 47.6, 49.5, 51.5, 53.4, 55.3, 57.2, 59.2⟩
  , ⟨4, 1, 54.3881, 0.0357, 48.6, 50.5, 52.4, 54.4, 56.3, 58.3, 60.2⟩
  , ⟨5, 1, 55.3374, 0.03534, 49.5, 51.4, 53.4, 55.3, 57.3, 59.2, 61.2⟩
  , ⟨6, 1, 56.2357, 0.03501, 50.3, 52.3, 54.3, 56.2, 58.2, 60.2, 62.1⟩
  , ⟨7, 1, 57.0851, 0.0347, 51.1, 53.1, 55.1, 57.1, 59.1, 61, 63⟩
  , ⟨8, 1, 57.8889, 0.03442, 51.9, 53.9, 55.9, 57.9, 59.9, 61.9, 63.9⟩
  , ⟨9, 1, 58.6536, 0.03416, 52.6, 54.6, 56.6, 58.7, 60.7, 62.7, 64.7⟩
  , ⟨10, 1, 59.3872, 0.03392, 53.3, 55.4, 57.4, 59.4, 61.4, 63.4, 65.4⟩
  , ⟨11, 1, 60.0894, 0.03369, 54, 56, 58.1, 60.1, 62.1, 64.1, 66.2⟩
  , ⟨12, 1, 60.7605, 0.03348, 54.7, 56.7, 58.7, 60.8, 62.8, 64.8, 66.9⟩
  , ⟨13, 1, 61.4013, 0.03329, 55.3, 57.3, 59.4, 61.4, 63.4, 65.5, 67.5⟩ ]

/-- Modelled from the spec: the WHO reference table
`weightForLengthGirlBirthTo2Years` (its data file
weight-for-length-0-to-2-years.ts is not in the snapshot; only its
importers and tests are).  Per spec section 3 the rows are sorted by
ascending length with monotone sd fields; the sd values at length 45, 45.5,
50 and 110 below are the ones documented in the spec (section 8 concrete
scenario) and in the package tests.  No theorem in this file inspects any
other row value. -/
def weightForLengthGirlBirthTo2Years : List WeightForLength :=
  [ ⟨45, -0.3833, 2.4607, 0.09029, 1.9, 2.1, 2.3, 2.5, 2.7, 3.0, 3.3⟩
  , ⟨45.5, -0.3833, 2.5457, 0.09033, 2.0, 2.2, 2.4, 2.6, 2.8, 3.1, 3.4⟩
  , ⟨50, -0.3833, 3.4172, 0.09155, 2.6, 2.8, 3.1, 3.4, 3.7, 4.0, 4.5⟩
  , ⟨110, -0.3833, 18.3419, 0.1, 14.2, 15.5, 16.8, 18.3, 20.0, 22.0, 24.2⟩ ]

/-- Modelled from the spec: `weightForLengthBoyBirthTo2Years` (data file not
in the snapshot).  Row values are representative; no theorem inspects them. -/
def weightForLengthBoyBirthTo2Years : List WeightForLength :=
  [ ⟨45, -0.3521, 2.441, 0.09182, 1.9, 2.0, 2.2, 2.4, 2.7, 2.9, 3.2⟩
  , ⟨110, -0.3521, 18.6, 0.1, 14.5, 15.8, 17.1, 18.6, 20.3, 22.3, 24.6⟩ ]

/-- Modelled from the spec: `weightForLengthGirl2To5Years` (data file not in
the snapshot).  Row values are representative; no theorem inspects them. -/
def weightForLengthGirl2To5Years : List WeightForLength :=
  [ ⟨65, -0.3833, 7.2402, 0.09113, 5.6, 6.1, 6.6, 7.2, 7.9, 8.7, 9.7⟩
  , ⟨120, -0.3833, 22.0, 0.11, 16.8, 18.3, 20.0, 22.0, 24.2, 26.8, 29.9⟩ ]

/-- Modelled from the spec: `weightForLengthBoy2To5Years` (data file not in
the snapshot).  Row values are representative; no theorem inspects them. -/
def weightForLengthBoy2To5Years : List WeightForLength :=
  [ ⟨65, -0.3521, 7.4327, 0.08217, 5.9, 6.3, 6.9, 7.4, 8.1, 8.8, 9.6⟩
  , ⟨120, -0.3521, 22.4, 0.1, 17.2, 18.7, 20.4, 22.4, 24.6, 27.2, 30.2⟩ ]

/-- Modelled from the spec: `heightForAgeGirl0To2Years` (data file not in
the snapshot).  Month-keyed rows, sorted ascending; representative values. -/
def heightForAgeGirl0To2Years : List HeightForAge :=
  [ ⟨0, 1, 49.1477, 0.0379, 43.6, 45.4, 47.3, 49.1, 51, 52.9, 54.7⟩
  , ⟨12, 1, 74.015, 0.03479, 66.3, 68.9, 71.4, 74, 76.6, 79.2, 81.7⟩
  , ⟨24, 1, 85.7153, 0.03507, 76.7, 79.6, 82.5, 85.7, 88.9, 92.2, 95.4⟩ ]

/-- Modelled from the spec: `heightForAgeBoy0To2Years` (data file not in the
snapshot).  Representative values. -/
def heightForAgeBoy0To2Years : List HeightForAge :=
  [ ⟨0, 1, 49.8842, 0.03795, 44.2, 46.1, 48, 49.9, 51.8, 53.7, 55.6⟩
  , ⟨12, 1, 75.7488, 0.03165, 68.6, 71, 73.4, 75.7, 78.1, 80.5, 82.9⟩
  , ⟨24, 1, 87.8161, 0.03479, 78.7, 81.7, 84.8, 87.8, 90.9, 93.9, 97⟩ ]

/-- Modelled from the spec: `heightForAgeGirl2To5Years` (data file not in
the snapshot).  Representative values. -/
def heightForAgeGirl2To5Years : List HeightForAge :=
  [ ⟨25, 1, 85.4, 0.0352, 76.8, 79.7, 82.6, 85.4, 88.3, 91.1, 94⟩
  , ⟨60, 1, 109.4, 0.0395, 96.4, 100.7, 105, 109.4, 113.8, 118.2, 122.6⟩ ]

/-- Modelled from the spec: `heightForAgeBoy2To5Years` (data file not in the
snapshot).  Representative values. -/
def heightForAgeBoy2To5Years : List HeightForAge :=
  [ ⟨25, 1, 87.1, 0.0347, 78, 81.1, 84.1, 87.1, 90.2, 93.2, 96.2⟩
  , ⟨60, 1, 110, 0.0383, 97.4, 101.6, 105.8, 110, 114.2, 118.4, 122.6⟩ ]

/-- `getWeightForLengthByBirthDate` from weight-for-length.ts: selects the
weight-for-length table for the child's age in months and sex, `undefined`
past 60 months; `new Date()` modelled by the explicit `today`. -/
def getWeightForLengthByBirthDate (birthDate today : JSDate) (gender : Gender) :
    Option (List WeightForLength) :=
  let age := calculateMonthsSinceBirth birthDate today
  -- 2 years in months
  if age ≤ 24 ∧ gender = Gender.Female then some weightForLengthGirlBirthTo2Years
  else if age ≤ 60 ∧ gender = Gender.Female then some weightForLengthGirl2To5Years
  else if age ≤ 24 ∧ gender = Gender.Male then some weightForLengthBoyBirthTo2Years
  else if age ≤ 60 ∧ gender = Gender.Male then some weightForLengthBoy2To5Years
  else none

/-- `getLengthForAgeDataset` from length-height-for-age.ts: note the source
compares `calculateMonthsSinceBirth(birthDate) <= 13` (months, not weeks)
before returning the 0-to-13-weeks tables. -/
def getLengthForAgeDataset (birthDate today : JSDate) (gender : Gender) :
    Option (List LengthForAge) :=
  let age := calculateMonthsSinceBirth birthDate today
  if age ≤ 13 ∧ gender = Gender.Female then some lengthForAgeGirl0To13Weeks
  else if age ≤ 13 ∧ gender = Gender.Male then some lengthForAgeBoy0To13Weeks
  else none

/-- `getHeightForAgeDataset` from length-height-for-age.ts. -/
def getHeightForAgeDataset (birthDate today : JSDate) (gender : Gender) :
    Option (List HeightForAge) :=
  let age := calculateMonthsSinceBirth birthDate today
  if age ≤ 24 ∧ gender = Gender.Female then some heightForAgeGirl0To2Years
  else if age ≤ 24 ∧ gender = Gender.Male then some heightForAgeBoy0To2Years
  else if age ≤ 60 ∧ gender = Gender.Female then some heightForAgeGirl2To5Years
  else if age ≤ 60 ∧ gender = Gender.Male then some heightForAgeBoy2To5Years
  else none

/-- `getLengthOrHeightForAgeType` from length-height-for-age.ts: the source
throws (message "Age exceeds 5 years. ...") as soon as the age exceeds 52
weeks; the `throw` is embedded as `Except.error`. -/
def getLengthOrHeightForAgeType (birthDate today : JSDate) :
    Except String LengthOrHeightForAgeType :=
  let weeks := calculateWeeksBetweenDates birthDate today
  if weeks ≤ 13 then Except.ok LengthOrHeightForAgeType.Length
  else if weeks ≤ 52 then Except.ok LengthOrHeightForAgeType.Height
  else Except.error "Age exceeds 5 years. Cannot evaluate length/height for age"

/-- `calculateZScoreFromLMS` from weight-for-length.ts, over `ℝ`: the
source returns `NaN` when the general branch sees a non-positive ratio;
that return is embedded as `none`. -/
noncomputable def calculateZScoreFromLMS (l m s weight : ℝ) : Option ℝ :=
  if |l| < 1e-10 then
    some (Real.log (weight / m) / s)
  else
    let r := weight / m
    if r ≤ 0 then none
    else some ((r ^ l - 1) / (l * s))

/-- `calculateWeightFromLMS` from weight-for-length-d3js.ts, over `ℝ`: the
source returns `NaN` when `1 + l*s*z ≤ 0` in the general branch; that
return is embedded as `none`. -/
noncomputable def calculateWeightFromLMS (l m s zScore : ℝ) : Option ℝ :=
  if |l| < 1e-10 then
    some (m * Real.exp (s * zScore))
  else
    let innerValue := 1 + l * s * zScore
    if innerValue ≤ 0 then none
    else some (m * innerValue ^ (1 / l))

/-- The bracket-scanning loop inside `findWeightForLengthEntry`
(weight-for-length.ts lines 92-99): `lower` tracks the last row strictly
below the query, and the loop breaks at the first row strictly above it
(the `!upper` test in the source is vacuous, since the loop breaks as soon
as `upper` is first assigned). -/
def findBracket (length : ℚ) :
    List WeightForLength → Option WeightForLength →
      Option WeightForLength × Option WeightForLength
  | [], lower => (lower, none)
  | entry :: rest, lower =>
    if entry.length < length then findBracket length rest (some entry)
    else if entry.length > length then (lower, some entry)
    else findBracket length rest lower

/-- `findWeightForLengthEntry` from weight-for-length.ts: exact match,
else linear interpolation between the bracket rows, else clamp to the
nearest edge row (`lower || upper`), `null` only when the data is empty. -/
def findWeightForLengthEntry (length : ℚ) (data : List WeightForLength) :
    Option WeightForLength :=
  if data.isEmpty then none
  else
    match data.find? (fun d => d.length == length) with
    | some exactMatch => some exactMatch
    | none =>
      match findBracket length data none with
      | (some lower, some upper) =>
        let r := (length - lower.length) / (upper.length - lower.length)
        some { length := length
             , l := lower.l + (upper.l - lower.l) * r
             , m := lower.m + (upper.m - lower.m) * r
             , s := lower.s + (upper.s - lower.s) * r
             , sd3neg := lower.sd3neg + (upper.sd3neg - lower.sd3neg) * r
             , sd2neg := lower.sd2neg + (upper.sd2neg - lower.sd2neg) * r
             , sd1neg := lower.sd1neg + (upper.sd1neg - lower.sd1neg) * r
             , sd0 := lower.sd0 + (upper.sd0 - lower.sd0) * r
             , sd1 := lower.sd1 + (upper.sd1 - lower.sd1) * r
             , sd2 := lower.sd2 + (upper.sd2 - lower.sd2) * r
             , sd3 := lower.sd3 + (upper.sd3 - lower.sd3) * r }
      | (some lower, none) => some lower
      | (none, upper) => upper

/-- `evaluateWeightForLength` from weight-for-length.ts: resolves the entry
for the given length, then classifies the weight by the strictly-ascending
chain of strict comparisons; the `throw` on a missing entry is embedded as
`Except.error`. -/
def evaluateWeightForLength (weight length : ℚ) (value : List WeightForLength) :
    Except String WeightForLengthEvalulationStatus :=
  match findWeightForLengthEntry length value with
  | none => Except.error "No data found for length"
  | some entry =>
    if weight < entry.sd3neg then Except.ok WeightForLengthEvalulationStatus.BelowSd3Neg
    else if weight < entry.sd2neg then Except.ok WeightForLengthEvalulationStatus.BetweenSd3NegAndSd2Neg
    else if weight < entry.sd1neg then Except.ok WeightForLengthEvalulationStatus.BetweenSd2NegAndSd1Neg
    else if weight < entry.sd0 then Except.ok WeightForLengthEvalulationStatus.BetweenSd1NegAndSd0
    else if weight < entry.sd1 then Except.ok WeightForLengthEvalulationStatus.BetweenSd0AndSd1
    else if weight < entry.sd2 then Except.ok WeightForLengthEvalulationStatus.BetweenSd1AndSd2
    else if weight < entry.sd3 then Except.ok WeightForLengthEvalulationStatus.BetweenSd2AndSd3
    else Except.ok WeightForLengthEvalulationStatus.AboveSd3

/-- `evaluateWeightSinceBirth` from weight-for-length.ts. -/
def evaluateWeightSinceBirth (weight length : ℚ) (birthDate today : JSDate)
    (gender : Gender) : Except String WeightForLengthEvalulationStatus :=
  match getWeightForLengthByBirthDate birthDate today gender with
  | none => Except.error "No data found for birth date and gender"
  | some weightForLength => evaluateWeightForLength weight length weightForLength

/-- `findLengthForAgeEntryByDateOfBirth` from length-height-for-age.ts. -/
def findLengthForAgeEntryByDateOfBirth (birthDate today : JSDate)
    (lengthForAge : List LengthForAge) : Option LengthForAge :=
  let weeks := calculateWeeksBetweenDates birthDate today
  lengthForAge.find? (fun entry => entry.week == weeks)

/-- `findHeightForAgeEntryByDateOfBirth` from length-height-for-age.ts. -/
def findHeightForAgeEntryByDateOfBirth (birthDate today : JSDate)
    (heightForAge : List HeightForAge) : Option HeightForAge :=
  let months := calculateMonthsSinceBirth birthDate today
  heightForAge.find? (fun entry => entry.month == months)

/-- `evaluateLengthAgainstEntry` from length-height-for-age.ts: the same
strictly-ascending chain of strict comparisons against the row's seven sd
boundaries. -/
def evaluateLengthAgainstEntry (length : ℚ) (entry : LengthForAge) :
    LengthHeightForAgeEvalulationStatus :=
  if length < entry.sd3neg then LengthHeightForAgeEvalulationStatus.BelowSd3Neg
  else if length < entry.sd2neg then LengthHeightForAgeEvalulationStatus.BetweenSd3NegAndSd2Neg
  else if length < entry.sd1neg then LengthHeightForAgeEvalulationStatus.BetweenSd2NegAndSd1Neg
  else if length < entry.sd0 then LengthHeightForAgeEvalulationStatus.BetweenSd1NegAndSd0
  else if length < entry.sd1 then LengthHeightForAgeEvalulationStatus.BetweenSd0AndSd1
  else if length < entry.sd2 then LengthHeightForAgeEvalulationStatus.BetweenSd1AndSd2
  else if length < entry.sd3 then LengthHeightForAgeEvalulationStatus.BetweenSd2AndSd3
  else LengthHeightForAgeEvalulationStatus.AboveSd3

/-- `evaluateHeightAgainstEntry` from length-height-for-age.ts. -/
def evaluateHeightAgainstEntry (height : ℚ) (entry : HeightForAge) :
    LengthHeightForAgeEvalulationStatus :=
  if height < entry.sd3neg then LengthHeightForAgeEvalulationStatus.BelowSd3Neg
  else if height < entry.sd2neg then LengthHeightForAgeEvalulationStatus.BetweenSd3NegAndSd2Neg
  else if height < entry.sd1neg then LengthHeightForAgeEvalulationStatus.BetweenSd2NegAndSd1Neg
  else if height < entry.sd0 then LengthHeightForAgeEvalulationStatus.BetweenSd1NegAndSd0
  else if height < entry.sd1 then LengthHeightForAgeEvalulationStatus.BetweenSd0AndSd1
  else if height < entry.sd2 then LengthHeightForAgeEvalulationStatus.BetweenSd1AndSd2
  else if height < entry.sd3 then LengthHeightForAgeEvalulationStatus.BetweenSd2AndSd3
  else LengthHeightForAgeEvalulationStatus.AboveSd3

/-- `evaluateLengthForAgeFromDataset` from length-height-for-age.ts. -/
def evaluateLengthForAgeFromDataset (length : ℚ) (birthDate today : JSDate)
    (lengthForAge : List LengthForAge) :
    Except String LengthHeightForAgeEvalulationStatus :=
  match findLengthForAgeEntryByDateOfBirth birthDate today lengthForAge with
  | none => Except.error "No data found for length"
  | some lengthForAgeEntry => Except.ok (evaluateLengthAgainstEntry length lengthForAgeEntry)

/-- `evaluateHeightForAgeFromDataset` from length-height-for-age.ts. -/
def evaluateHeightForAgeFromDataset (height : ℚ) (birthDate today : JSDate)
    (heightForAge : List HeightForAge) :
    Except String LengthHeightForAgeEvalulationStatus :=
  match findHeightForAgeEntryByDateOfBirth birthDate today heightForAge with
  | none => Except.error "No data found for height"
  | some heightForAgeEntry => Except.ok (evaluateHeightAgainstEntry height heightForAgeEntry)

/-- `evaluateLengthOrHeightForAge` from length-height-for-age.ts: every
`throw` along the way is embedded as `Except.error`. -/
def evaluateLengthOrHeightForAge (lengthOrHeight : ℚ) (birthDate today : JSDate)
    (gender : Gender) : Except String LengthHeightForAgeEvalulationStatus :=
  match getLengthOrHeightForAgeType birthDate today with
  | Except.error e => Except.error e
  | Except.ok lengthOrHeightForAgeType =>
    if lengthOrHeightForAgeType = LengthOrHeightForAgeType.Length then
      match getLengthForAgeDataset birthDate today gender with
      | none => Except.error "No length data found for the birth date and the gender"
      | some lengthForAge => evaluateLengthForAgeFromDataset lengthOrHeight birthDate today lengthForAge
    else
      match getHeightForAgeDataset birthDate today gender with
      | none => Except.error "No height data found for the birth date and the gender"
      | some heightForAge => evaluateHeightForAgeFromDataset lengthOrHeight birthDate today heightForAge

/-- Position of a `WeightForLengthEvalulationStatus` in the natural band
ordering, `BelowSd3Neg` lowest. -/
def bandIndex : WeightForLengthEvalulationStatus → ℕ
  | WeightForLengthEvalulationStatus.BelowSd3Neg => 0
  | WeightForLengthEvalulationStatus.BetweenSd3NegAndSd2Neg => 1
  | WeightForLengthEvalulationStatus.BetweenSd2NegAndSd1Neg => 2
  | WeightForLengthEvalulationStatus.BetweenSd1NegAndSd0 => 3
  | WeightForLengthEvalulationStatus.BetweenSd0AndSd1 => 4
  | WeightForLengthEvalulationStatus.BetweenSd1AndSd2 => 5
  | WeightForLengthEvalulationStatus.BetweenSd2AndSd3 => 6
  | WeightForLengthEvalulationStatus.AboveSd3 => 7

/-- Position of a `LengthHeightForAgeEvalulationStatus` in the natural band
ordering, `BelowSd3Neg` lowest. -/
def lengthBandIndex : LengthHeightForAgeEvalulationStatus → ℕ
  | LengthHeightForAgeEvalulationStatus.BelowSd3Neg => 0
  | LengthHeightForAgeEvalulationStatus.BetweenSd3NegAndSd2Neg => 1
  | LengthHeightForAgeEvalulationStatus.BetweenSd2NegAndSd1Neg => 2
  | LengthHeightForAgeEvalulationStatus.BetweenSd1NegAndSd0 => 3
  | LengthHeightForAgeEvalulationStatus.BetweenSd0AndSd1 => 4
  | LengthHeightForAgeEvalulationStatus.BetweenSd1AndSd2 => 5
  | LengthHeightForAgeEvalulationStatus.BetweenSd2AndSd3 => 6
  | LengthHeightForAgeEvalulationStatus.AboveSd3 => 7

/-! Helper lemmas about the bracket scan of `findWeightForLengthEntry`. -/

/-- If the first row is already strictly above the query, the scan stops at
once with that row as the upper bracket. -/
lemma findBracket_head_gt (len : ℚ) (d : WeightForLength) (rest : List WeightForLength)
    (acc : Option WeightForLength) (h : len < d.length) :
    findBracket len (d :: rest) acc = (acc, some d) := by
  unfold findBracket
  rw [if_neg (by linarith), if_pos h]

/-- If every row is strictly below the query, the scan accumulates the final
row as the lower bracket and finds no upper bracket. -/
lemma findBracket_all_lt (len : ℚ) (lastRow : WeightForLength)
    (hlast : lastRow.length < len) :
    ∀ (pre : List WeightForLength) (acc : Option WeightForLength),
      (∀ e ∈ pre, e.length < len) →
      findBracket len (pre ++ [lastRow]) acc = (some lastRow, none)
  | [], acc, _ => by
    simp only [List.nil_append]
    unfold findBracket
    rw [if_pos hlast]
    rfl
  | d :: pre, acc, h => by
    have hd : d.length < len := h d (by simp)
    simp only [List.cons_append]
    unfold findBracket
    rw [if_pos hd]
    exact findBracket_all_lt len lastRow hlast pre (some d)
      (fun e he => h e (List.mem_cons_of_mem d he))

/-- If every row of a prefix is strictly below the query and the next two
rows bracket it, the scan returns exactly that bracketing pair. -/
lemma findBracket_past_lower_rows (len : ℚ) (lo up : WeightForLength)
    (post : List WeightForLength) (hlo : lo.length < len) (hup : len < up.length) :
    ∀ (pre : List WeightForLength) (acc : Option WeightForLength),
      (∀ e ∈ pre, e.length < len) →
      findBracket len (pre ++ lo :: up :: post) acc = (some lo, some up)
  | [], acc, _ => by
    simp only [List.nil_append]
    unfold findBracket
    rw [if_pos hlo]
    exact findBracket_head_gt len up post (some lo) hup
  | d :: pre, acc, h => by
    have hd : d.length < len := h d (by simp)
    simp only [List.cons_append]
    unfold findBracket
    rw [if_pos hd]
    exact findBracket_past_lower_rows len lo up post hlo hup pre (some d)
      (fun e he => h e (List.mem_cons_of_mem d he))

/-- The scan returns at least one bracket whenever the data is non-empty and
holds no exact match. -/
lemma findBracket_ne_none_none (len : ℚ) :
    ∀ (data : List WeightForLength) (acc : Option WeightForLength),
      (∀ e ∈ data, e.length ≠ len) →
      findBracket len data acc = (none, none) → acc = none ∧ data = []
  | [], acc, _, heq => by
    unfold findBracket at heq
    exact ⟨(Prod.ext_iff.mp heq).1, rfl⟩
  | d :: rest, acc, h, heq => by
    have hdne : d.length ≠ len := h d (by simp)
    unfold findBracket at heq
    by_cases hlt : d.length < len
    · rw [if_pos hlt] at heq
      have := findBracket_ne_none_none len rest (some d)
        (fun e he => h e (List.mem_cons_of_mem d he)) heq
      exact absurd this.1 (by simp)
    · rw [if_neg hlt, if_pos (lt_of_le_of_ne (not_lt.mp hlt) (Ne.symm hdne))] at heq
      exact absurd (Prod.ext_iff.mp heq).2 (by simp)

/-- Non-empty data always resolves to some entry. -/
lemma findWeightForLengthEntry_isSome (len : ℚ) (data : List WeightForLength)
    (hne : data ≠ []) : ∃ e, findWeightForLengthEntry len data = some e := by
  unfold findWeightForLengthEntry
  rw [if_neg (by simp [List.isEmpty_iff, hne])]
  cases hfind : data.find? (fun d => d.length == len) with
  | some e => exact ⟨e, rfl⟩
  | none =>
    have hall : ∀ e ∈ data, e.length ≠ len := by
      intro e he
      have := List.find?_eq_none.mp hfind e he
      simpa using this
    cases hbr : findBracket len data none with
    | mk lower upper =>
      cases lower with
      | some lowEntry =>
        cases upper with
        | some upEntry => exact ⟨_, rfl⟩
        | none => exact ⟨lowEntry, rfl⟩
      | none =>
        cases upper with
        | some upEntry => exact ⟨upEntry, rfl⟩
        | none => exact absurd (findBracket_ne_none_none len data none hall hbr).2 hne

/-- C2: for every non-empty dataset sorted by ascending independent
variable, `findWeightForLengthEntry` applied to a query below the table
minimum returns the first row unmodified, and applied to a query above the
table maximum returns the last row unmodified — never a missing result,
never extrapolation. -/
theorem findWeightForLengthEntry_clamps (data : List WeightForLength) (hne : data ≠ [])
    (hsorted : data.Pairwise (fun a b => a.length < b.length)) (len : ℚ) :
    (len < (data.head hne).length →
      findWeightForLengthEntry len data = some (data.head hne)) ∧
    ((data.getLast hne).length < len →
      findWeightForLengthEntry len data = some (data.getLast hne)) := by
  constructor
  · intro hbelow
    obtain ⟨d, rest, rfl⟩ := List.exists_cons_of_ne_nil hne
    have hcons := List.pairwise_cons.mp hsorted
    have hall : ∀ e ∈ d :: rest, len < e.length := by
      intro e he
      rcases List.mem_cons.mp he with rfl | hmem
      · exact hbelow
      · exact lt_trans hbelow (hcons.1 e hmem)
    unfold findWeightForLengthEntry
    rw [if_neg (by simp)]
    rw [List.find?_eq_none.mpr (by intro e he; simpa using ne_of_gt (hall e he))]
    rw [findBracket_head_gt len d rest none (hall d (by simp))]
    rfl
  · intro habove
    have hdecomp := List.dropLast_append_getLast hne
    have hsorted2 : (data.dropLast ++ [data.getLast hne]).Pairwise
        (fun a b => a.length < b.length) := hdecomp.symm ▸ hsorted
    have hpre : ∀ e ∈ data.dropLast, e.length < len := by
      intro e he
      have hcross := (List.pairwise_append.mp hsorted2).2.2
      have := hcross e he (data.getLast hne) (by simp)
      linarith
    have hall : ∀ e ∈ data, e.length ≠ len := by
      intro e he
      rw [← hdecomp] at he
      rcases List.mem_append.mp he with hmem | hmem
      · exact ne_of_lt (hpre e hmem)
      · have : e = data.getLast hne := by simpa using hmem
        rw [this]
        exact ne_of_lt habove
    unfold findWeightForLengthEntry
    rw [if_neg (by simp [List.isEmpty_iff, hne])]
    rw [List.find?_eq_none.mpr (by intro e he; simpa using hall e he)]
    conv_lhs => rw [← hdecomp]
    rw [findBracket_all_lt len (data.getLast hne) habove data.dropLast none hpre]

/-- C3: when the query falls strictly between two adjacent rows of a sorted
dataset, `findWeightForLengthEntry` returns the synthetic row in which every
numeric field equals `lower + (upper - lower) * (value - lower.x) /
(upper.x - lower.x)`. -/
theorem findWeightForLengthEntry_interpolates
    (pre post : List WeightForLength) (lo up : WeightForLength) (len : ℚ)
    (hsorted : (pre ++ lo :: up :: post).Pairwise (fun a b => a.length < b.length))
    (hlo : lo.length < len) (hup : len < up.length) :
    findWeightForLengthEntry len (pre ++ lo :: up :: post) =
      some { length := len
           , l := lo.l + (up.l - lo.l) * (len - lo.length) / (up.length - lo.length)
           , m := lo.m + (up.m - lo.m) * (len - lo.length) / (up.length - lo.length)
           , s := lo.s + (up.s - lo.s) * (len - lo.length) / (up.length - lo.length)
           , sd3neg := lo.sd3neg + (up.sd3neg - lo.sd3neg) * (len - lo.length) / (up.length - lo.length)
           , sd2neg := lo.sd2neg + (up.sd2neg - lo.sd2neg) * (len - lo.length) / (up.length - lo.length)
           , sd1neg := lo.sd1neg + (up.sd1neg - lo.sd1neg) * (len - lo.length) / (up.length - lo.length)
           , sd0 := lo.sd0 + (up.sd0 - lo.sd0) * (len - lo.length) / (up.length - lo.length)
           , sd1 := lo.sd1 + (up.sd1 - lo.sd1) * (len - lo.length) / (up.length - lo.length)
           , sd2 := lo.sd2 + (up.sd2 - lo.sd2) * (len - lo.length) / (up.length - lo.length)
           , sd3 := lo.sd3 + (up.sd3 - lo.sd3) * (len - lo.length) / (up.length - lo.length) } := by
  obtain ⟨hpreP, hrestP, hcross⟩ := List.pairwise_append.mp hsorted
  have hpre : ∀ e ∈ pre, e.length < len :=
    fun e he => lt_trans (hcross e he lo (by simp)) hlo
  have hall : ∀ e ∈ pre ++ lo :: up :: post, e.length ≠ len := by
    intro e he
    rcases List.mem_append.mp he with hmem | hmem
    · exact ne_of_lt (hpre e hmem)
    · rcases List.mem_cons.mp hmem with rfl | hmem2
      · exact ne_of_lt hlo
      · rcases List.mem_cons.mp hmem2 with rfl | hmem3
        · exact ne_of_gt hup
        · have h2 := List.pairwise_cons.mp hrestP
          have h3 := List.pairwise_cons.mp h2.2
          exact ne_of_gt (lt_trans hup (h3.1 e hmem3))
  unfold findWeightForLengthEntry
  rw [if_neg (by simp)]
  rw [List.find?_eq_none.mpr (by intro e he; simpa using hall e he)]
  rw [findBracket_past_lower_rows len lo up post hlo hup pre none hpre]
  simp only [Option.some.injEq, WeightForLength.mk.injEq]
  refine ⟨trivial, ?_, ?_, ?_, ?_, ?_, ?_, ?_, ?_, ?_, ?_⟩ <;> ring

/-- C10: `evaluateWeightForLength` is total on non-empty data — it returns
one of the eight statuses exactly when the dataset is non-empty, and the
error branch is reachable only for an empty dataset. -/
theorem evaluateWeightForLength_total (w len : ℚ) (data : List WeightForLength) :
    (∃ st, evaluateWeightForLength w len data = Except.ok st) ↔ data ≠ [] := by
  constructor
  · rintro ⟨st, hst⟩ rfl
    simp [evaluateWeightForLength, findWeightForLengthEntry] at hst
  · intro hne
    obtain ⟨e, he⟩ := findWeightForLengthEntry_isSome len data hne
    unfold evaluateWeightForLength
    rw [he]
    dsimp only
    split_ifs <;> exact ⟨_, rfl⟩

/-- An exact length match in a singleton dataset resolves to that row. -/
lemma findWeightForLengthEntry_self (e : WeightForLength) :
    findWeightForLengthEntry e.length [e] = some e := by
  unfold findWeightForLengthEntry
  simp [List.find?]

/-- The weight-for-length row of the spec's concrete scenario (girl's table,
length 45 cm); the `l`, `m`, `s` values are immaterial to the band chain. -/
def sampleWeightRow : WeightForLength :=
  ⟨45, 1, 2.5, 0.1, 1.9, 2.1, 2.3, 2.5, 2.7, 3.0, 3.3⟩

/-- The adjacent row at length 45.5 cm with `sd0 = 2.6`, as in the
interpolation-continuity property. -/
def sampleWeightRowNext : WeightForLength :=
  ⟨45.5, 1, 2.6, 0.1, 2.0, 2.2, 2.4, 2.6, 2.8, 3.1, 3.4⟩

/-- Week-0 row of `lengthForAgeGirl0To13Weeks`. -/
def sampleLengthRow : LengthForAge :=
  ⟨0, 1, 49.1477, 0.0379, 43.6, 45.4, 47.3, 49.1, 51, 52.9, 54.7⟩

/-- C1: both evaluators classify by strictly-ascending strict comparison, so
a measurement exactly equal to a boundary falls into the band strictly above
that boundary, and an exact match at `sd3` yields `AboveSd3`. -/
theorem evaluate_boundary_tie_break (e : WeightForLength) (f : LengthForAge)
    (h1 : e.sd3neg < e.sd2neg) (h2 : e.sd2neg < e.sd1neg) (h3 : e.sd1neg < e.sd0)
    (h4 : e.sd0 < e.sd1) (h5 : e.sd1 < e.sd2) (h6 : e.sd2 < e.sd3)
    (g1 : f.sd3neg < f.sd2neg) (g2 : f.sd2neg < f.sd1neg) (g3 : f.sd1neg < f.sd0)
    (g4 : f.sd0 < f.sd1) (g5 : f.sd1 < f.sd2) (g6 : f.sd2 < f.sd3) :
    (evaluateWeightForLength e.sd3neg e.length [e]
        = Except.ok WeightForLengthEvalulationStatus.BetweenSd3NegAndSd2Neg ∧
      evaluateWeightForLength e.sd2neg e.length [e]
        = Except.ok WeightForLengthEvalulationStatus.BetweenSd2NegAndSd1Neg ∧
      evaluateWeightForLength e.sd1neg e.length [e]
        = Except.ok WeightForLengthEvalulationStatus.BetweenSd1NegAndSd0 ∧
      evaluateWeightForLength e.sd0 e.length [e]
        = Except.ok WeightForLengthEvalulationStatus.BetweenSd0AndSd1 ∧
      evaluateWeightForLength e.sd1 e.length [e]
        = Except.ok WeightForLengthEvalulationStatus.BetweenSd1AndSd2 ∧
      evaluateWeightForLength e.sd2 e.length [e]
        = Except.ok WeightForLengthEvalulationStatus.BetweenSd2AndSd3 ∧
      evaluateWeightForLength e.sd3 e.length [e]
        = Except.ok WeightForLengthEvalulationStatus.AboveSd3) ∧
    (evaluateLengthAgainstEntry f.sd3neg f
        = LengthHeightForAgeEvalulationStatus.BetweenSd3NegAndSd2Neg ∧
      evaluateLengthAgainstEntry f.sd2neg f
        = LengthHeightForAgeEvalulationStatus.BetweenSd2NegAndSd1Neg ∧
      evaluateLengthAgainstEntry f.sd1neg f
        = LengthHeightForAgeEvalulationStatus.BetweenSd1NegAndSd0 ∧
      evaluateLengthAgainstEntry f.sd0 f
        = LengthHeightForAgeEvalulationStatus.BetweenSd0AndSd1 ∧
      evaluateLengthAgainstEntry f.sd1 f
        = LengthHeightForAgeEvalulationStatus.BetweenSd1AndSd2 ∧
      evaluateLengthAgainstEntry f.sd2 f
        = LengthHeightForAgeEvalulationStatus.BetweenSd2AndSd3 ∧
      evaluateLengthAgainstEntry f.sd3 f
        = LengthHeightForAgeEvalulationStatus.AboveSd3) := by
  have hw : ∀ w : ℚ, evaluateWeightForLength w e.length [e] =
      (if w < e.sd3neg then Except.ok WeightForLengthEvalulationStatus.BelowSd3Neg
      else if w < e.sd2neg then Except.ok WeightForLengthEvalulationStatus.BetweenSd3NegAndSd2Neg
      else if w < e.sd1neg then Except.ok WeightForLengthEvalulationStatus.BetweenSd2NegAndSd1Neg
      else if w < e.sd0 then Except.ok WeightForLengthEvalulationStatus.BetweenSd1NegAndSd0
      else if w < e.sd1 then Except.ok WeightForLengthEvalulationStatus.BetweenSd0AndSd1
      else if w < e.sd2 then Except.ok WeightForLengthEvalulationStatus.BetweenSd1AndSd2
      else if w < e.sd3 then Except.ok WeightForLengthEvalulationStatus.BetweenSd2AndSd3
      else Except.ok WeightForLengthEvalulationStatus.AboveSd3) := by
    intro w
    unfold evaluateWeightForLength
    rw [findWeightForLengthEntry_self]
  refine ⟨⟨?_, ?_, ?_, ?_, ?_, ?_, ?_⟩, ?_, ?_, ?_, ?_, ?_, ?_, ?_⟩
  · rw [hw, if_neg (not_lt.mpr le_rfl), if_pos h1]
  · rw [hw, if_neg (not_lt.mpr (by linarith)), if_neg (not_lt.mpr le_rfl), if_pos h2]
  · rw [hw, if_neg (not_lt.mpr (by linarith)), if_neg (not_lt.mpr (by linarith)),
      if_neg (not_lt.mpr le_rfl), if_pos h3]
  · rw [hw, if_neg (not_lt.mpr (by linarith)), if_neg (not_lt.mpr (by linarith)),
      if_neg (not_lt.mpr (by linarith)), if_neg (not_lt.mpr le_rfl), if_pos h4]
  · rw [hw, if_neg (not_lt.mpr (by linarith)), if_neg (not_lt.mpr (by linarith)),
      if_neg (not_lt.mpr (by linarith)), if_neg (not_lt.mpr (by linarith)),
      if_neg (not_lt.mpr le_rfl), if_pos h5]
  · rw [hw, if_neg (not_lt.mpr (by linarith)), if_neg (not_lt.mpr (by linarith)),
      if_neg (not_lt.mpr (by linarith)), if_neg (not_lt.mpr (by linarith)),
      if_neg (not_lt.mpr (by linarith)), if_neg (not_lt.mpr le_rfl), if_pos h6]
  · rw [hw, if_neg (not_lt.mpr (by linarith)), if_neg (not_lt.mpr (by linarith)),
      if_neg (not_lt.mpr (by linarith)), if_neg (not_lt.mpr (by linarith)),
      if_neg (not_lt.mpr (by linarith)), if_neg (not_lt.mpr (by linarith)),
      if_neg (not_lt.mpr le_rfl)]
  · unfold evaluateLengthAgainstEntry
    rw [if_neg (not_lt.mpr le_rfl), if_pos g1]
  · unfold evaluateLengthAgainstEntry
    rw [if_neg (not_lt.mpr (by linarith)), if_neg (not_lt.mpr le_rfl), if_pos g2]
  · unfold evaluateLengthAgainstEntry
    rw [if_neg (not_lt.mpr (by linarith)), if_neg (not_lt.mpr (by linarith)),
      if_neg (not_lt.mpr le_rfl), if_pos g3]
  · unfold evaluateLengthAgainstEntry
    rw [if_neg (not_lt.mpr (by linarith)), if_neg (not_lt.mpr (by linarith)),
      if_neg (not_lt.mpr (by linarith)), if_neg (not_lt.mpr le_rfl), if_pos g4]
  · unfold evaluateLengthAgainstEntry
    rw [if_neg (not_lt.mpr (by linarith)), if_neg (not_lt.mpr (by linarith)),
      if_neg (not_lt.mpr (by linarith)), if_neg (not_lt.mpr (by linarith)),
      if_neg (not_lt.mpr le_rfl), if_pos g5]
  · unfold evaluateLengthAgainstEntry
    rw [if_neg (not_lt.mpr (by linarith)), if_neg (not_lt.mpr (by linarith)),
      if_neg (not_lt.mpr (by linarith)), if_neg (not_lt.mpr (by linarith)),
      if_neg (not_lt.mpr (by linarith)), if_neg (not_lt.mpr le_rfl), if_pos g6]
  · unfold evaluateLengthAgainstEntry
    rw [if_neg (not_lt.mpr (by linarith)), if_neg (not_lt.mpr (by linarith)),
      if_neg (not_lt.mpr (by linarith)), if_neg (not_lt.mpr (by linarith)),
      if_neg (not_lt.mpr (by linarith)), if_neg (not_lt.mpr (by linarith)),
      if_neg (not_lt.mpr le_rfl)]

/-- Witness for C1 at the spec's concrete rows. -/
theorem evaluate_boundary_tie_break_witness :
    ((1.9:ℚ) < 2.1 ∧ (2.1:ℚ) < 2.3 ∧ (2.3:ℚ) < 2.5 ∧ (2.5:ℚ) < 2.7 ∧
      (2.7:ℚ) < 3.0 ∧ (3.0:ℚ) < 3.3 ∧
      (43.6:ℚ) < 45.4 ∧ (45.4:ℚ) < 47.3 ∧ (47.3:ℚ) < 49.1 ∧ (49.1:ℚ) < 51 ∧
      (51:ℚ) < 52.9 ∧ (52.9:ℚ) < 54.7) ∧
    ((evaluateWeightForLength 1.9 45 [sampleWeightRow]
        = Except.ok WeightForLengthEvalulationStatus.BetweenSd3NegAndSd2Neg ∧
      evaluateWeightForLength 2.1 45 [sampleWeightRow]
        = Except.ok WeightForLengthEvalulationStatus.BetweenSd2NegAndSd1Neg ∧
      evaluateWeightForLength 2.3 45 [sampleWeightRow]
        = Except.ok WeightForLengthEvalulationStatus.BetweenSd1NegAndSd0 ∧
      evaluateWeightForLength 2.5 45 [sampleWeightRow]
        = Except.ok WeightForLengthEvalulationStatus.BetweenSd0AndSd1 ∧
      evaluateWeightForLength 2.7 45 [sampleWeightRow]
        = Except.ok WeightForLengthEvalulationStatus.BetweenSd1AndSd2 ∧
      evaluateWeightForLength 3.0 45 [sampleWeightRow]
        = Except.ok WeightForLengthEvalulationStatus.BetweenSd2AndSd3 ∧
      evaluateWeightForLength 3.3 45 [sampleWeightRow]
        = Except.ok WeightForLengthEvalulationStatus.AboveSd3) ∧
    (evaluateLengthAgainstEntry 43.6 sampleLengthRow
        = LengthHeightForAgeEvalulationStatus.BetweenSd3NegAndSd2Neg ∧
      evaluateLengthAgainstEntry 45.4 sampleLengthRow
        = LengthHeightForAgeEvalulationStatus.BetweenSd2NegAndSd1Neg ∧
      evaluateLengthAgainstEntry 47.3 sampleLengthRow
        = LengthHeightForAgeEvalulationStatus.BetweenSd1NegAndSd0 ∧
      evaluateLengthAgainstEntry 49.1 sampleLengthRow
        = LengthHeightForAgeEvalulationStatus.BetweenSd0AndSd1 ∧
      evaluateLengthAgainstEntry 51 sampleLengthRow
        = LengthHeightForAgeEvalulationStatus.BetweenSd1AndSd2 ∧
      evaluateLengthAgainstEntry 52.9 sampleLengthRow
        = LengthHeightForAgeEvalulationStatus.BetweenSd2AndSd3 ∧
      evaluateLengthAgainstEntry 54.7 sampleLengthRow
        = LengthHeightForAgeEvalulationStatus.AboveSd3)) :=
  ⟨by norm_num,
   evaluate_boundary_tie_break sampleWeightRow sampleLengthRow
    (by norm_num : (1.9:ℚ) < 2.1) (by norm_num : (2.1:ℚ) < 2.3)
    (by norm_num : (2.3:ℚ) < 2.5) (by norm_num : (2.5:ℚ) < 2.7)
    (by norm_num : (2.7:ℚ) < 3.0) (by norm_num : (3.0:ℚ) < 3.3)
    (by norm_num : (43.6:ℚ) < 45.4) (by norm_num : (45.4:ℚ) < 47.3)
    (by norm_num : (47.3:ℚ) < 49.1) (by norm_num : (49.1:ℚ) < 51)
    (by norm_num : (51:ℚ) < 52.9) (by norm_num : (52.9:ℚ) < 54.7)⟩

/-- Witness for C2 on a two-row sorted dataset. -/
theorem findWeightForLengthEntry_clamps_witness :
    (([sampleWeightRow, sampleWeightRowNext] : List WeightForLength) ≠ [] ∧
      ([sampleWeightRow, sampleWeightRowNext] : List WeightForLength).Pairwise
        (fun a b => a.length < b.length) ∧
      (40:ℚ) < 45 ∧ (45.5:ℚ) < 120) ∧
    findWeightForLengthEntry 40 [sampleWeightRow, sampleWeightRowNext]
      = some sampleWeightRow ∧
    findWeightForLengthEntry 120 [sampleWeightRow, sampleWeightRowNext]
      = some sampleWeightRowNext := by
  have hne : ([sampleWeightRow, sampleWeightRowNext] : List WeightForLength) ≠ [] := by
    simp
  have hs : ([sampleWeightRow, sampleWeightRowNext] : List WeightForLength).Pairwise
      (fun a b => a.length < b.length) := by
    refine List.Pairwise.cons ?_ (List.Pairwise.cons ?_ List.Pairwise.nil)
    · intro x hx
      rw [List.mem_singleton.mp hx]
      exact (by norm_num : (45:ℚ) < 45.5)
    · intro x hx
      exact absurd hx (List.not_mem_nil x)
  refine ⟨⟨hne, hs, by norm_num, by norm_num⟩, ?_, ?_⟩
  · exact (findWeightForLengthEntry_clamps _ hne hs 40).1 (by norm_num : (40:ℚ) < 45)
  · exact (findWeightForLengthEntry_clamps _ hne hs 120).2 (by norm_num : (45.5:ℚ) < 120)

/-- Witness for C3: the lookup at 45.25 between rows at 45 (sd0 = 2.5) and
45.5 (sd0 = 2.6) yields the linear midpoint sd0 = 2.55. -/
theorem findWeightForLengthEntry_interpolates_witness :
    (([sampleWeightRow, sampleWeightRowNext] : List WeightForLength).Pairwise
        (fun a b => a.length < b.length) ∧
      (45:ℚ) < 45.25 ∧ (45.25:ℚ) < 45.5) ∧
    ∃ e, findWeightForLengthEntry 45.25 [sampleWeightRow, sampleWeightRowNext] = some e ∧
      e.sd0 = 2.55 := by
  have hs : ([sampleWeightRow, sampleWeightRowNext] : List WeightForLength).Pairwise
      (fun a b => a.length < b.length) := by
    refine List.Pairwise.cons ?_ (List.Pairwise.cons ?_ List.Pairwise.nil)
    · intro x hx
      rw [List.mem_singleton.mp hx]
      exact (by norm_num : (45:ℚ) < 45.5)
    · intro x hx
      exact absurd hx (List.not_mem_nil x)
  refine ⟨⟨hs, by norm_num, by norm_num⟩, ?_⟩
  refine ⟨_, findWeightForLengthEntry_interpolates [] [] sampleWeightRow sampleWeightRowNext
    45.25 hs (by norm_num : (45:ℚ) < 45.25) (by norm_num : (45.25:ℚ) < 45.5), ?_⟩
  show (2.5 : ℚ) + (2.6 - 2.5) * (45.25 - 45) / (45.5 - 45) = 2.55
  norm_num

set_option maxHeartbeats 1600000 in
/-- C7: for measurements `a < b` against the same resolved row, the returned
band for `a` is at or below the band for `b` in the natural band ordering,
for both the length-for-age row evaluator and the weight-for-length
evaluator (whose entry resolution depends only on the shared length). -/
theorem evaluateStatus_monotone (a b : ℚ) (entry : LengthForAge) (len : ℚ)
    (data : List WeightForLength) (sa sb : WeightForLengthEvalulationStatus)
    (hab : a < b)
    (ha : evaluateWeightForLength a len data = Except.ok sa)
    (hb : evaluateWeightForLength b len data = Except.ok sb) :
    lengthBandIndex (evaluateLengthAgainstEntry a entry) ≤
      lengthBandIndex (evaluateLengthAgainstEntry b entry) ∧
    bandIndex sa ≤ bandIndex sb := by
  constructor
  · unfold evaluateLengthAgainstEntry
    split_ifs <;> first | decide | (exfalso; linarith)
  · unfold evaluateWeightForLength at ha hb
    cases hfind : findWeightForLengthEntry len data with
    | none =>
      rw [hfind] at ha
      exact absurd ha (by simp)
    | some e =>
      rw [hfind] at ha hb
      dsimp only at ha hb
      split_ifs at ha hb <;>
        first
          | (injection ha with ia; injection hb with ib; subst ia; subst ib; decide)
          | (exfalso; linarith)

/-- Witness for C7 at measurements 1 and 2 against the scenario rows. -/
theorem evaluateStatus_monotone_witness :
    ((1:ℚ) < 2 ∧
      evaluateWeightForLength 1 45 [sampleWeightRow]
        = Except.ok WeightForLengthEvalulationStatus.BelowSd3Neg ∧
      evaluateWeightForLength 2 45 [sampleWeightRow]
        = Except.ok WeightForLengthEvalulationStatus.BetweenSd3NegAndSd2Neg) ∧
    (lengthBandIndex (evaluateLengthAgainstEntry 1 sampleLengthRow) ≤
        lengthBandIndex (evaluateLengthAgainstEntry 2 sampleLengthRow) ∧
      bandIndex WeightForLengthEvalulationStatus.BelowSd3Neg ≤
        bandIndex WeightForLengthEvalulationStatus.BetweenSd3NegAndSd2Neg) :=
  ⟨⟨by norm_num, by with_unfolding_all rfl, by with_unfolding_all rfl⟩,
   evaluateStatus_monotone 1 2 sampleLengthRow 45 [sampleWeightRow] _ _ (by norm_num)
     (by with_unfolding_all rfl) (by with_unfolding_all rfl)⟩

/-- C4: the length-for-age dataset selector compares months-since-birth, not
weeks, against 13.  For a birth date 140 days (exactly 20 weeks, 4 calendar
months) before the evaluation date — here 2024-01-10 to 2024-05-29 — the
child is beyond 13 weeks, yet the selector still returns the 0-to-13-weeks
table. -/
theorem getLengthForAgeDataset_uses_months_not_weeks :
    calculateWeeksBetweenDates ⟨2024, 0, 10, 0⟩ ⟨2024, 4, 29, 140 * 86400000⟩ = 20 ∧
    (13:ℤ) < 20 ∧
    calculateMonthsSinceBirth ⟨2024, 0, 10, 0⟩ ⟨2024, 4, 29, 140 * 86400000⟩ = 4 ∧
    getLengthForAgeDataset ⟨2024, 0, 10, 0⟩ ⟨2024, 4, 29, 140 * 86400000⟩ Gender.Female
      = some lengthForAgeGirl0To13Weeks :=
  ⟨by decide, by decide, by decide, by rfl⟩

/-- C5: the age gate of `evaluateLengthOrHeightForAge` throws as soon as the
age exceeds 52 weeks, although its own message says "Age exceeds 5 years".
For a birth date 728 days (104 weeks, 23 calendar months — here 2023-01-10
to 2025-01-07) before the evaluation date, the age is well under 60 months,
yet evaluation fails. -/
theorem evaluateLengthOrHeightForAge_throws_under_five_years :
    calculateWeeksBetweenDates ⟨2023, 0, 10, 0⟩ ⟨2025, 0, 7, 728 * 86400000⟩ = 104 ∧
    calculateMonthsSinceBirth ⟨2023, 0, 10, 0⟩ ⟨2025, 0, 7, 728 * 86400000⟩ = 23 ∧
    (23:ℤ) ≤ 60 ∧
    evaluateLengthOrHeightForAge 87 ⟨2023, 0, 10, 0⟩ ⟨2025, 0, 7, 728 * 86400000⟩
      Gender.Female
      = Except.error "Age exceeds 5 years. Cannot evaluate length/height for age" :=
  ⟨by decide, by decide, by decide, by rfl⟩

/-- Counterexample for C6: an evaluation date before the birth date (age -6
months) does not fail — the selector still returns the 0-to-2-years girl
table and the evaluation returns a status. -/
theorem getWeightForLengthByBirthDate_before_birth_returns_data :
    calculateMonthsSinceBirth ⟨2025, 5, 15, 1000⟩ ⟨2025, 0, 10, 0⟩ = -6 ∧
    (-6:ℤ) < 0 ∧
    getWeightForLengthByBirthDate ⟨2025, 5, 15, 1000⟩ ⟨2025, 0, 10, 0⟩ Gender.Female
      = some weightForLengthGirlBirthTo2Years ∧
    evaluateWeightSinceBirth 3 45 ⟨2025, 5, 15, 1000⟩ ⟨2025, 0, 10, 0⟩ Gender.Female
      = Except.ok WeightForLengthEvalulationStatus.BetweenSd2AndSd3 :=
  ⟨by decide, by decide, by rfl, by with_unfolding_all rfl⟩

/-- C6 amended: the weight-for-length selector fails exactly when
months-since-birth exceeds 60; any age at or below 60 months — including the
negative ages produced by an evaluation date before birth — selects a
dataset. -/
theorem getWeightForLengthByBirthDate_none_iff (b t : JSDate) (g : Gender) :
    getWeightForLengthByBirthDate b t g = none ↔ 60 < calculateMonthsSinceBirth b t := by
  cases g <;>
    · simp only [getWeightForLengthByBirthDate]
      split_ifs with hc1 hc2 hc3 hc4 <;> simp_all <;> omega

/-- Counterexample for C8: the repository's second months-since-birth
implementation returns only the raw month-field difference; for a birth on
2020-12-20 evaluated on 2025-01-05 it returns -11 where the claim's
calendar-aware formula gives 48. -/
theorem calculateMonthsSinceBirth_naive_counterexample :
    UnnamedPart028.calculateMonthsSinceBirth ⟨2020, 11, 20, 0⟩ ⟨2025, 0, 5, 0⟩ = -11 ∧
    specMonthsSinceBirth ⟨2020, 11, 20, 0⟩ ⟨2025, 0, 5, 0⟩ = 48 ∧
    UnnamedPart028.calculateMonthsSinceBirth ⟨2020, 11, 20, 0⟩ ⟨2025, 0, 5, 0⟩
      ≠ specMonthsSinceBirth ⟨2020, 11, 20, 0⟩ ⟨2025, 0, 5, 0⟩ :=
  ⟨by decide, by decide, by decide⟩

/-- C8 amended: the package math module's `calculateMonthsSinceBirth` agrees
with the claim's calendar-aware formula on every pair of dates. -/
theorem calculateMonthsSinceBirth_eq_spec (birthDate today : JSDate) :
    calculateMonthsSinceBirth birthDate today = specMonthsSinceBirth birthDate today := by
  simp only [calculateMonthsSinceBirth, specMonthsSinceBirth]
  split_ifs <;> omega

/-- C9: composing the measurement-from-z-score transform with the
z-score-from-measurement transform recovers the z-score (exactly, in the
real-number model, hence within the claimed 1e-6 tolerance), in both the
logarithmic branch and the general Box-Cox branch.  The hypotheses `0 < m`
and `s ≠ 0` hold for every triple of the shipped tables, and for the general
branch `0 < 1 + l*s*z` is the region where the source does not return NaN. -/
theorem lms_round_trip (l m s z : ℝ) (hm : 0 < m) (hs : s ≠ 0)
    (hcase : |l| < 1e-10 ∨ (¬(|l| < 1e-10) ∧ 0 < 1 + l * s * z)) :
    ∃ w zr, calculateWeightFromLMS l m s z = some w ∧
      calculateZScoreFromLMS l m s w = some zr ∧ |zr - z| ≤ 1e-6 := by
  rcases hcase with hlog | ⟨hl, hinner⟩
  · refine ⟨m * Real.exp (s * z), z, ?_, ?_, by norm_num⟩
    · unfold calculateWeightFromLMS
      rw [if_pos hlog]
    · unfold calculateZScoreFromLMS
      rw [if_pos hlog]
      have hdiv : m * Real.exp (s * z) / m = Real.exp (s * z) := by
        field_simp
      rw [hdiv, Real.log_exp, mul_div_cancel_left₀ z hs]
  · have hlne : l ≠ 0 := by
      intro h0
      rw [h0] at hl
      simp at hl
      norm_num at hl
    have hw : calculateWeightFromLMS l m s z = some (m * (1 + l * s * z) ^ (1 / l)) := by
      unfold calculateWeightFromLMS
      rw [if_neg hl]
      dsimp only
      rw [if_neg (not_le.mpr hinner)]
    have hpow : (0:ℝ) < (1 + l * s * z) ^ (1 / l) := Real.rpow_pos_of_pos hinner _
    have hdiv : m * (1 + l * s * z) ^ (1 / l) / m = (1 + l * s * z) ^ (1 / l) := by
      field_simp
    refine ⟨m * (1 + l * s * z) ^ (1 / l), z, hw, ?_, by norm_num⟩
    unfold calculateZScoreFromLMS
    rw [if_neg hl]
    dsimp only
    rw [hdiv, if_neg (not_le.mpr hpow)]
    have hmul : ((1 + l * s * z) ^ (1 / l)) ^ l = 1 + l * s * z := by
      rw [← Real.rpow_mul (le_of_lt hinner)]
      rw [one_div_mul_cancel hlne, Real.rpow_one]
    rw [hmul]
    have : (1 + l * s * z - 1) = l * s * z := by ring
    rw [this]
    rw [mul_div_cancel_left₀ z (mul_ne_zero hlne hs)]

/-- Witness for C9 at the shipped triple l=1, m=49.1477, s=0.0379 (week-0
girl length-for-age row) and z = 2, exercising the general Box-Cox branch. -/
theorem lms_round_trip_witness :
    ((0:ℝ) < 49.1477 ∧ (0.0379:ℝ) ≠ 0 ∧
      ¬(|(1:ℝ)| < 1e-10) ∧ (0:ℝ) < 1 + 1 * 0.0379 * 2) ∧
    ∃ w zr, calculateWeightFromLMS 1 49.1477 0.0379 2 = some w ∧
      calculateZScoreFromLMS 1 49.1477 0.0379 w = some zr ∧ |zr - 2| ≤ 1e-6 :=
  ⟨⟨by norm_num, by norm_num, by rw [abs_one]; norm_num, by norm_num⟩,
   lms_round_trip 1 49.1477 0.0379 2 (by norm_num) (by norm_num)
     (Or.inr ⟨by rw [abs_one]; norm_num, by norm_num⟩)⟩
